import Mathlib

/-!
Verification development for the TSP python bindings
(`tsp_python/tsp_python/tsp.py`).

The python layer wraps a native store.  The wrapper logic (the
`Wallet` context-manager bracket, `ReceivedTspMessage.from_flat`
dispatch, `receive`, and the public method signatures) is embedded
directly from the python source.  The native store operations
(`tsp_python.Store.*`) are not part of the python sources, so they are
modelled from the specification, as marked in their doc comments.
-/

/-- Byte strings are modelled as lists of naturals. -/
abbrev Bytes := List Nat

/-- Modelled from the spec: the crypto modes reported by the opening
engine; callers can reject `Plaintext`.  Mirrors the native
`tsp_python.CryptoType` enum (not in the python sources). -/
inductive CryptoType where
  | Plaintext
  | HpkeAuth
  deriving DecidableEq, Repr

/-- Modelled from the spec: the signature modes reported by the opening
engine; callers can reject `NoSignature`.  Mirrors the native
`tsp_python.SignatureType` enum (not in the python sources). -/
inductive SignatureType where
  | NoSignature
  | Ed25519
  deriving DecidableEq, Repr

/-- Typed errors raised by the store operations (spec section 7 plus the
two `ValueError` branches of `ReceivedTspMessage.from_flat`). -/
inductive TspError where
  | notFound
  | duplicateIdentifier
  | unknownRecipient
  | signatureInvalid
  | decryptionFailed
  | malformedRoute
  | todo
  | unrecognizedVariant (tag : Nat)
  deriving DecidableEq, Repr

/-- Modelled from the spec: the control payload carried inside a sealed
envelope, one constructor per protocol message family, plus an
`unknownTag` constructor for unrecognized wire tags. -/
inductive ControlPayload where
  | generic (message : Bytes)
  | request (thread_id : Nat) (nested_vid : Option String)
  | accept (nested_vid : Option String)
  | cancel
  | pending
  | unknownTag (tag : Nat)
  deriving DecidableEq, Repr

/-- Modelled from the spec: a sealed envelope.  `direct` is a signed and
encrypted envelope from sender to receiver; `routed` is one forwarding
layer around a still-sealed inner payload, carrying the remaining route
(spec section 4.5: each hop peels exactly its own layer and the route is
decremented at every hop). -/
inductive Sealed where
  | direct (crypto_type : CryptoType) (signature_type : SignatureType)
      (sender receiver : String) (nonconfidential_data : Option Bytes)
      (ctrl : ControlPayload)
  | routed (crypto_type : CryptoType) (signature_type : SignatureType)
      (sender receiver : String) (route : List String) (opaque_payload : Sealed)
  deriving DecidableEq, Repr

/-- Known wire tag for a generic message (mirrors
`ReceivedTspMessageVariant.GenericMessage`). -/
def variantGenericMessage : Nat := 0

/-- Known wire tag for a relationship request. -/
def variantRequestRelationship : Nat := 1

/-- Known wire tag for a relationship accept. -/
def variantAcceptRelationship : Nat := 2

/-- Known wire tag for a relationship cancel. -/
def variantCancelRelationship : Nat := 3

/-- Known wire tag for a forward request. -/
def variantForwardRequest : Nat := 4

/-- Known wire tag for a pending message. -/
def variantPendingMessage : Nat := 5

/-- Modelled from the spec: the flat result of the native
`Store.open_message` and `Store.receive` before the python layer turns
it into a tagged `ReceivedTspMessage`.  The `variant` field is the wire
tag (the six known tags are `0`..`5`; larger tags are unrecognized). -/
structure FlatReceivedTspMessage where
  variant : Nat
  sender : String := ""
  receiver : Option String := none
  nonconfidential_data : Option Bytes := none
  message : Bytes := []
  crypto_type : CryptoType := .Plaintext
  signature_type : SignatureType := .NoSignature
  route : List String := []
  nested_vid : Option String := none
  thread_id : Nat := 0
  next_hop : String := ""
  opaque_payload : Option Sealed := none
  deriving DecidableEq, Repr

/-- The tagged union of received messages, one constructor per python
dataclass (`GenericMessage`, `RequestRelationship`, `AcceptRelationship`,
`CancelRelationship`, `ForwardRequest`), with the field lists of the
dataclasses in `tsp_python/tsp_python/tsp.py`. -/
inductive ReceivedTspMessage where
  | genericMessage (sender : String) (receiver : Option String)
      (nonconfidential_data : Option Bytes) (message : Bytes)
      (crypto_type : CryptoType) (signature_type : SignatureType)
  | requestRelationship (sender : String) (receiver : Option String)
      (route : List String) (nested_vid : Option String) (thread_id : Nat)
  | acceptRelationship (sender : String) (receiver : Option String)
      (nested_vid : Option String)
  | cancelRelationship (sender : String) (receiver : Option String)
  | forwardRequest (sender : String) (receiver : Option String)
      (next_hop : String) (route : List String)
      (opaque_payload : Option Sealed)
  deriving DecidableEq, Repr

/-- Embedding of `ReceivedTspMessage.from_flat` from
`tsp_python/tsp_python/tsp.py`: dispatch on the variant tag in source
order; the `PendingMessage` arm raises `ValueError("todo!")` (modelled
as `TspError.todo`) and any unrecognized tag raises
`ValueError(f"Unrecognized variant: ...")`. -/
def from_flat (msg : FlatReceivedTspMessage) : Except TspError ReceivedTspMessage :=
  if msg.variant = variantGenericMessage then
    .ok (.genericMessage msg.sender msg.receiver msg.nonconfidential_data
      msg.message msg.crypto_type msg.signature_type)
  else if msg.variant = variantRequestRelationship then
    .ok (.requestRelationship msg.sender msg.receiver msg.route
      msg.nested_vid msg.thread_id)
  else if msg.variant = variantAcceptRelationship then
    .ok (.acceptRelationship msg.sender msg.receiver msg.nested_vid)
  else if msg.variant = variantCancelRelationship then
    .ok (.cancelRelationship msg.sender msg.receiver)
  else if msg.variant = variantForwardRequest then
    .ok (.forwardRequest msg.sender msg.receiver msg.next_hop msg.route
      msg.opaque_payload)
  else if msg.variant = variantPendingMessage then
    .error .todo
  else
    .error (.unrecognizedVariant msg.variant)

/-- Modelled from the spec: an owned identifier (`tsp_python.OwnedVid`,
not in the python sources): an identifier string plus its transport
endpoint; `identifier()` returns the `id` field. -/
structure OwnedVid where
  id : String
  transport : String
  deriving DecidableEq, Repr

/-- Modelled from the spec: one record of the identifier and key store
(spec section 3): identifier, transport endpoint, whether this store
holds the private key material, and the optional forwarding route whose
presence makes the identifier nested. -/
structure VidRecord where
  id : String
  transport : String
  isPrivate : Bool
  route : List String
  deriving DecidableEq, Repr

/-- Modelled from the spec: the persisted wallet contents (spec
sections 3 and 6): identifier records, aliases, auxiliary key-value
data, recorded relations (vid paired with the local identifier it has a
relationship with), an inbox of transport-delivered messages, and a
nonce used for fresh thread ids and minted identifiers. -/
structure WalletData where
  vids : List VidRecord
  aliases : List (String × String)
  kv : List (String × Bytes)
  relations : List (String × String)
  inbox : List (String × FlatReceivedTspMessage)
  nonce : Nat
  deriving DecidableEq, Repr

/-- The empty wallet. -/
def emptyWallet : WalletData :=
  { vids := [], aliases := [], kv := [], relations := [], inbox := [], nonce := 0 }

/-- A store instance: the in-memory native state plus the persisted
wallet it is loaded from and flushed to. -/
structure StoreState where
  mem : WalletData
  disk : WalletData
  deriving DecidableEq, Repr

/-- Wallet events observed at the persistence boundary:
`Wallet.__enter__` performs a read, `Wallet.__exit__` performs a
write. -/
inductive WEvent where
  | read
  | write
  deriving DecidableEq, Repr

/-- The outcome of one wrapped store operation: its result (or raised
error), the store state afterwards, and the trace of wallet events. -/
structure OpOut (α : Type) where
  result : Except TspError α
  state : StoreState
  trace : List WEvent
  deriving Repr

/-- A native store operation body: acts on the loaded wallet data and
returns a result (or error) together with the possibly-mutated data. -/
abbrev InnerOp (α : Type) := WalletData → Except TspError α × WalletData

/-- Embedding of the `with Wallet(self):` bracket from
`tsp_python/tsp_python/tsp.py`: `__enter__` loads the persisted wallet
into memory, the body runs on the loaded data, and `__exit__` writes the
in-memory data back on every exit path, error or not (python guarantees
`__exit__` runs when the body raises). -/
def withWallet (body : InnerOp α) (s : StoreState) : OpOut α :=
  let loaded := s.disk
  let step := body loaded
  { result := step.1
    state := { mem := step.2, disk := step.2 }
    trace := [WEvent.read, WEvent.write] }

/-- Record lookup by identifier. -/
def lookupVid (l : List VidRecord) (v : String) : Option VidRecord :=
  l.find? (fun r => r.id == v)

/-- Alias lookup. -/
def lookupAlias (l : List (String × String)) (a : String) : Option String :=
  (l.find? (fun p => p.1 == a)).map (fun p => p.2)

/-- Relation lookup: the local identifier recorded as having a
relationship with `v`. -/
def relationFor (st : WalletData) (v : String) : Option String :=
  (st.relations.find? (fun p => p.1 == v)).map (fun p => p.2)

/-- Modelled from the spec: the native `Store.store_kv` body (spec
section 4.1 auxiliary key-value storage): record the pair. -/
def storeKvInner (key : String) (value : Bytes) : InnerOp Unit := fun st =>
  (.ok (), { st with kv := (key, value) :: st.kv })

/-- Modelled from the spec: the native `Store.get_kv` body; fails with
`NotFound` if the key is absent. -/
def getKvInner (key : String) : InnerOp Bytes := fun st =>
  match (st.kv.find? (fun p => p.1 == key)) with
  | none => (.error .notFound, st)
  | some p => (.ok p.2, st)

/-- Modelled from the spec: the native `Store.resolve_alias` body:
a pure alias lookup returning `none` for an unknown alias. -/
def resolveAliasInner (aliasName : String) : InnerOp (Option String) := fun st =>
  (.ok (lookupAlias st.aliases aliasName), st)

/-- Modelled from the spec: the native `Store.add_private_vid` body
(spec section 4.1): register an identifier this party controls together
with its private key material; fails with `DuplicateIdentifier` if the
identifier is already present. -/
def addPrivateVidInner (vid : OwnedVid) (aliasName : Option String) : InnerOp Unit := fun st =>
  if (lookupVid st.vids vid.id).isSome then (.error .duplicateIdentifier, st)
  else
    (.ok (),
      { st with
        vids := { id := vid.id, transport := vid.transport,
                  isPrivate := true, route := [] } :: st.vids
        aliases := match aliasName with
          | none => st.aliases
          | some a => (a, vid.id) :: st.aliases })

/-- Modelled from the spec: the native `Store.add_verified_owned_vid`
body: register the same identifier but without the private keys. -/
def addVerifiedOwnedVidInner (vid : OwnedVid) (aliasName : Option String) : InnerOp Unit := fun st =>
  if (lookupVid st.vids vid.id).isSome then (.error .duplicateIdentifier, st)
  else
    (.ok (),
      { st with
        vids := { id := vid.id, transport := vid.transport,
                  isPrivate := false, route := [] } :: st.vids
        aliases := match aliasName with
          | none => st.aliases
          | some a => (a, vid.id) :: st.aliases })

/-- Modelled from the spec: the native `Store.set_route_for_vid` body
(spec section 4.1): record the forwarding path on an existing record,
reclassifying it as nested; fails with `NotFound` if absent. -/
def setRouteForVidInner (vid : String) (rt : List String) : InnerOp Unit := fun st =>
  if (lookupVid st.vids vid).isSome then
    (.ok (),
      { st with
        vids := st.vids.map (fun r => if r.id == vid then { r with route := rt } else r) })
  else (.error .notFound, st)

/-- Modelled from the spec: the native `Store.forget_vid` body. -/
def forgetVidInner (vid : String) : InnerOp Unit := fun st =>
  if (lookupVid st.vids vid).isSome then
    (.ok (), { st with vids := st.vids.filter (fun r => r.id != vid) })
  else (.error .notFound, st)

/-- Modelled from the spec: the native `Store.seal_message` body (spec
section 4.2).  Looks up the sender (must hold private key material) and
the receiver; fails with `UnknownRecipient` if the receiver is absent.
For a plain receiver it produces a signed-and-encrypted direct envelope
and returns the receiver transport endpoint.  For a receiver with a
recorded route it wraps the envelope in a forwarding layer addressed to
the first hop (sealed from the local identifier that has a relation
with that hop), carrying the remaining route, and returns the first-hop
endpoint (spec section 4.5: callers do not seal routed layers
themselves).  The `nonconfidential_data` parameter of the native engine
is carried as authenticated associated data in the envelope. -/
def sealMessageInner (sender receiver : String) (nonconfidential_data : Option Bytes)
    (message : Bytes) : InnerOp (String × Sealed) := fun st =>
  match lookupVid st.vids sender with
  | none => (.error .notFound, st)
  | some srec =>
    if srec.isPrivate = false then (.error .notFound, st)
    else
      match lookupVid st.vids receiver with
      | none => (.error .unknownRecipient, st)
      | some rrec =>
        let core := Sealed.direct .HpkeAuth .Ed25519 sender receiver
          nonconfidential_data (.generic message)
        match rrec.route with
        | [] => (.ok (rrec.transport, core), st)
        | firstHop :: rest =>
          match lookupVid st.vids firstHop with
          | none => (.error .unknownRecipient, st)
          | some hrec =>
            let outerSender := (relationFor st firstHop).getD sender
            (.ok (hrec.transport,
              Sealed.routed .HpkeAuth .Ed25519 outerSender firstHop rest core), st)

/-- Modelled from the spec: when an opened handshake payload discloses a
nested identifier, the opener registers it (without private keys) so
that later traffic under the nested identity can be sealed and verified
(spec section 4.4: the identifier is disclosed to the other party only
inside the encrypted handshake payload). -/
def registerNested (nested : Option String) (transport : String)
    (st : WalletData) : WalletData :=
  match nested with
  | none => st
  | some nid =>
    if (lookupVid st.vids nid).isSome then st
    else
      { st with
        vids := { id := nid, transport := transport,
                  isPrivate := false, route := [] } :: st.vids }

/-- Modelled from the spec: the native `Store.open_message` body (spec
section 4.3).  Verifies the outer signature against the claimed sender
registered key material (`SignatureInvalid` if absent), decrypts toward
the receiver (`DecryptionFailed` unless this store holds the receiver
private key material), and produces the flat message for exactly one
variant.  A forwarding layer yields the forward-request tag with the
next hop, the remaining route and the still-sealed opaque payload; a
forwarding layer with an empty remaining route at a non-terminal hop is
`MalformedRoute`. -/
def openMessageInner (message : Sealed) : InnerOp FlatReceivedTspMessage := fun st =>
  match message with
  | .direct ct sg sender receiver ncd ctrl =>
    match lookupVid st.vids sender with
    | none => (.error .signatureInvalid, st)
    | some srec =>
      match lookupVid st.vids receiver with
      | none => (.error .decryptionFailed, st)
      | some rrec =>
        if rrec.isPrivate = false then (.error .decryptionFailed, st)
        else
          match ctrl with
          | .generic m =>
            (.ok { variant := variantGenericMessage, sender := sender,
                   receiver := some receiver, nonconfidential_data := ncd,
                   message := m, crypto_type := ct, signature_type := sg }, st)
          | .request th nested =>
            (.ok { variant := variantRequestRelationship, sender := sender,
                   receiver := some receiver, nested_vid := nested,
                   thread_id := th }, registerNested nested srec.transport st)
          | .accept nested =>
            (.ok { variant := variantAcceptRelationship, sender := sender,
                   receiver := some receiver, nested_vid := nested },
             registerNested nested srec.transport st)
          | .cancel =>
            (.ok { variant := variantCancelRelationship, sender := sender,
                   receiver := some receiver }, st)
          | .pending =>
            (.ok { variant := variantPendingMessage, sender := sender,
                   receiver := some receiver }, st)
          | .unknownTag t =>
            (.ok { variant := 6 + t, sender := sender,
                   receiver := some receiver }, st)
  | .routed _ _ sender receiver rt inner_payload =>
    match lookupVid st.vids sender with
    | none => (.error .signatureInvalid, st)
    | some _ =>
      match lookupVid st.vids receiver with
      | none => (.error .decryptionFailed, st)
      | some rrec =>
        if rrec.isPrivate = false then (.error .decryptionFailed, st)
        else
          match rt with
          | [] => (.error .malformedRoute, st)
          | nh :: rest =>
            (.ok { variant := variantForwardRequest, sender := sender,
                   receiver := some receiver, next_hop := nh, route := rest,
                   opaque_payload := some inner_payload }, st)

/-- Modelled from the spec: the native `Store.make_relationship_request`
body (spec section 4.4): generate a fresh thread id, seal a
relationship-request control message from sender to receiver, record
the implicit relation, and return the receiver endpoint with the sealed
bytes. -/
def makeRelationshipRequestInner (sender receiver : String)
    (_route : Option (List String)) : InnerOp (String × Sealed) := fun st =>
  match lookupVid st.vids sender with
  | none => (.error .notFound, st)
  | some srec =>
    if srec.isPrivate = false then (.error .notFound, st)
    else
      match lookupVid st.vids receiver with
      | none => (.error .unknownRecipient, st)
      | some rrec =>
        let th := st.nonce
        (.ok (rrec.transport,
          Sealed.direct .HpkeAuth .Ed25519 sender receiver none (.request th none)),
         { st with nonce := st.nonce + 1,
                   relations := (receiver, sender) :: st.relations })

/-- Modelled from the spec: the native `Store.make_relationship_accept`
body (spec section 4.4): seal an accept control message echoing the
thread through its cryptographic binding and record the relation. -/
def makeRelationshipAcceptInner (sender receiver : String) (_thread_id : Nat)
    (_route : Option (List String)) : InnerOp (String × Sealed) := fun st =>
  match lookupVid st.vids sender with
  | none => (.error .notFound, st)
  | some srec =>
    if srec.isPrivate = false then (.error .notFound, st)
    else
      match lookupVid st.vids receiver with
      | none => (.error .unknownRecipient, st)
      | some rrec =>
        (.ok (rrec.transport,
          Sealed.direct .HpkeAuth .Ed25519 sender receiver none (.accept none)),
         { st with relations := (receiver, sender) :: st.relations })

/-- Modelled from the spec: the native `Store.make_relationship_cancel`
body. -/
def makeRelationshipCancelInner (sender receiver : String) : InnerOp (String × Sealed) := fun st =>
  match lookupVid st.vids sender with
  | none => (.error .notFound, st)
  | some srec =>
    if srec.isPrivate = false then (.error .notFound, st)
    else
      match lookupVid st.vids receiver with
      | none => (.error .unknownRecipient, st)
      | some rrec =>
        (.ok (rrec.transport,
          Sealed.direct .HpkeAuth .Ed25519 sender receiver none .cancel), st)

/-- The deterministic identifier of a nested identity minted by `parent`
with the wallet nonce `n` (the native engine mints a fresh identifier
from fresh key material; freshness is modelled through the nonce). -/
def nestedName (parent : String) (n : Nat) : String :=
  "nested-" ++ parent ++ "-" ++ Nat.repr n

/-- Modelled from the spec: the native
`Store.make_nested_relationship_request` body (spec section 4.4): mint
a fresh nested identifier owned by the caller, register it privately,
embed it in the relationship-request control payload sent from the
parent identity, and return the minted identifier to the caller. -/
def makeNestedRelationshipRequestInner (parent_sender receiver : String) :
    InnerOp ((String × Sealed) × OwnedVid) := fun st =>
  match lookupVid st.vids parent_sender with
  | none => (.error .notFound, st)
  | some srec =>
    if srec.isPrivate = false then (.error .notFound, st)
    else
      match lookupVid st.vids receiver with
      | none => (.error .unknownRecipient, st)
      | some rrec =>
        let nid := nestedName parent_sender st.nonce
        if (lookupVid st.vids nid).isSome then (.error .duplicateIdentifier, st)
        else
          let th := st.nonce
          (.ok ((rrec.transport,
              Sealed.direct .HpkeAuth .Ed25519 parent_sender receiver none
                (.request th (some nid))),
            { id := nid, transport := srec.transport }),
           { st with
             vids := { id := nid, transport := srec.transport,
                       isPrivate := true, route := [] } :: st.vids
             nonce := st.nonce + 1,
             relations := (receiver, parent_sender) :: st.relations })

/-- Modelled from the spec: the native
`Store.make_nested_relationship_accept` body (spec section 4.4): mirror
of the request side, minting the peer nested counterpart and embedding
it in the accept control payload. -/
def makeNestedRelationshipAcceptInner (sender receiver : String) (_thread_id : Nat) :
    InnerOp ((String × Sealed) × OwnedVid) := fun st =>
  match lookupVid st.vids sender with
  | none => (.error .notFound, st)
  | some srec =>
    if srec.isPrivate = false then (.error .notFound, st)
    else
      match lookupVid st.vids receiver with
      | none => (.error .unknownRecipient, st)
      | some rrec =>
        let nid := nestedName sender st.nonce
        if (lookupVid st.vids nid).isSome then (.error .duplicateIdentifier, st)
        else
          (.ok ((rrec.transport,
              Sealed.direct .HpkeAuth .Ed25519 sender receiver none
                (.accept (some nid))),
            { id := nid, transport := srec.transport }),
           { st with
             vids := { id := nid, transport := srec.transport,
                       isPrivate := true, route := [] } :: st.vids
             nonce := st.nonce + 1,
             relations := (receiver, sender) :: st.relations })

/-- Modelled from the spec: the native `Store.forward_routed_message`
body (spec section 4.5): with an unknown next hop it fails with
`UnknownRecipient`; with a non-empty remaining route it re-seals the
opaque payload for delivery toward the next hop inside a new forwarding
layer carrying the decremented route; at the last hop (empty remaining
route) the unwrapped opaque payload is delivered as-is and resolves at
the final receiver to the original envelope. -/
def forwardRoutedMessageInner (next_hop : String) (rt : List String)
    (opaque_payload : Sealed) : InnerOp (String × Sealed) := fun st =>
  match lookupVid st.vids next_hop with
  | none => (.error .unknownRecipient, st)
  | some nrec =>
    match rt with
    | [] => (.ok (nrec.transport, opaque_payload), st)
    | _ =>
      let outerSender := (relationFor st next_hop).getD next_hop
      (.ok (nrec.transport,
        Sealed.routed .HpkeAuth .Ed25519 outerSender next_hop rt opaque_payload), st)

/-- Modelled from the spec: the native `Store.receive` body: fetch the
first transport-delivered message addressed to the given private
identifier, removing it from the inbox; `none` when no message is
available. -/
def receiveInner (vid : String) : WalletData → Option FlatReceivedTspMessage × WalletData :=
  fun st =>
    match st.inbox.find? (fun p => p.1 == vid) with
    | none => (none, st)
    | some p =>
      (some p.2, { st with inbox := st.inbox.eraseP (fun q => q.1 == vid) })

/-- Embedding of `SecureStore.store_kv`: `with Wallet(self): self.inner.store_kv(key, value)`. -/
def store_kv (s : StoreState) (key : String) (value : Bytes) : OpOut Unit :=
  withWallet (storeKvInner key value) s

/-- Embedding of `SecureStore.get_kv`. -/
def get_kv (s : StoreState) (key : String) : OpOut Bytes :=
  withWallet (getKvInner key) s

/-- Embedding of `SecureStore.resolve_alias`. -/
def resolve_alias (s : StoreState) (aliasName : String) : OpOut (Option String) :=
  withWallet (resolveAliasInner aliasName) s

/-- Embedding of `SecureStore.add_private_vid`. -/
def add_private_vid (s : StoreState) (vid : OwnedVid)
    (aliasName : Option String := none) : OpOut Unit :=
  withWallet (addPrivateVidInner vid aliasName) s

/-- Embedding of `SecureStore.add_verified_owned_vid`. -/
def add_verified_owned_vid (s : StoreState) (vid : OwnedVid)
    (aliasName : Option String := none) : OpOut Unit :=
  withWallet (addVerifiedOwnedVidInner vid aliasName) s

/-- Embedding of `SecureStore.set_route_for_vid`. -/
def set_route_for_vid (s : StoreState) (vid : String) (rt : List String) : OpOut Unit :=
  withWallet (setRouteForVidInner vid rt) s

/-- Embedding of `SecureStore.forget_vid`. -/
def forget_vid (s : StoreState) (vid : String) : OpOut Unit :=
  withWallet (forgetVidInner vid) s

/-- Embedding of `SecureStore.seal_message` from
`tsp_python/tsp_python/tsp.py`: the wrapper accepts exactly `sender`,
`receiver` and `message` and calls the native engine with them, so no
associated data can be supplied through it (the native
`nonconfidential_data` argument is left at its empty default). -/
def seal_message (s : StoreState) (sender receiver : String)
    (message : Bytes) : OpOut (String × Sealed) :=
  withWallet (sealMessageInner sender receiver none message) s

/-- The sealing entry point as the specification words it (spec
section 4.2), for comparison with the embedded wrapper: it accepts an
optional `nonconfidential_data` argument besides sender, receiver and
message, and passes it to the sealing engine to be carried as
authenticated associated data.  Stated from the spec, not from the
source, to settle whether the wrapper refines it. -/
def seal_message_with_nonconfidential (s : StoreState) (sender receiver : String)
    (message : Bytes) (nonconfidential_data : Option Bytes) : OpOut (String × Sealed) :=
  withWallet (sealMessageInner sender receiver nonconfidential_data message) s

/-- The associated data recorded in the outermost layer of a sealed
envelope (`none` for a forwarding layer, which carries no generic
associated data). -/
def sealedNonconfidential : Sealed → Option Bytes
  | .direct _ _ _ _ ncd _ => ncd
  | .routed _ _ _ _ _ _ => none

/-- Embedding of `SecureStore.open_message`: open to a flat message via
the native engine, then dispatch through
`ReceivedTspMessage.from_flat`; a dispatch error propagates out of the
wallet bracket like the raised `ValueError` in python. -/
def open_message (s : StoreState) (message : Sealed) : OpOut ReceivedTspMessage :=
  withWallet
    (fun st =>
      match openMessageInner message st with
      | (.ok flat, st1) => (from_flat flat, st1)
      | (.error e, st1) => (.error e, st1))
    s

/-- Embedding of `SecureStore.receive`: fetch one message for the given
private identifier; `None` when no message is available, otherwise the
result of the same `from_flat` dispatch used by `open_message`. -/
def receive (s : StoreState) (vid : String) : OpOut (Option ReceivedTspMessage) :=
  withWallet
    (fun st =>
      let step := receiveInner vid st
      match step.1 with
      | none => (.ok none, step.2)
      | some flat => ((from_flat flat).map some, step.2))
    s

/-- Embedding of `SecureStore.make_relationship_request`. -/
def make_relationship_request (s : StoreState) (sender receiver : String)
    (rt : Option (List String)) : OpOut (String × Sealed) :=
  withWallet (makeRelationshipRequestInner sender receiver rt) s

/-- Embedding of `SecureStore.make_relationship_accept`. -/
def make_relationship_accept (s : StoreState) (sender receiver : String)
    (thread_id : Nat) (rt : Option (List String)) : OpOut (String × Sealed) :=
  withWallet (makeRelationshipAcceptInner sender receiver thread_id rt) s

/-- Embedding of `SecureStore.make_relationship_cancel`. -/
def make_relationship_cancel (s : StoreState) (sender receiver : String) :
    OpOut (String × Sealed) :=
  withWallet (makeRelationshipCancelInner sender receiver) s

/-- Embedding of `SecureStore.make_nested_relationship_request`. -/
def make_nested_relationship_request (s : StoreState)
    (parent_sender receiver : String) : OpOut ((String × Sealed) × OwnedVid) :=
  withWallet (makeNestedRelationshipRequestInner parent_sender receiver) s

/-- Embedding of `SecureStore.make_nested_relationship_accept`. -/
def make_nested_relationship_accept (s : StoreState) (sender receiver : String)
    (thread_id : Nat) : OpOut ((String × Sealed) × OwnedVid) :=
  withWallet (makeNestedRelationshipAcceptInner sender receiver thread_id) s

/-- Embedding of `SecureStore.forward_routed_message`. -/
def forward_routed_message (s : StoreState) (next_hop : String)
    (rt : List String) (opaque_payload : Sealed) : OpOut (String × Sealed) :=
  withWallet (forwardRoutedMessageInner next_hop rt opaque_payload) s

/-- The initial store state over an empty persisted wallet. -/
def st0 : StoreState := { mem := emptyWallet, disk := emptyWallet }

/-- Demo identifier owned by alice (mirrors `new_vid()` in `test.py`). -/
def aliceVid : OwnedVid := { id := "alice", transport := "tcp://t" }

/-- Demo identifier owned by bob. -/
def bobVid : OwnedVid := { id := "bob", transport := "tcp://t" }

/-- A single store holding both demo private identifiers, as in the
`AliceBob.setUp` fixture of `test.py`. -/
def demoStore : StoreState :=
  (add_private_vid (add_private_vid st0 aliceVid).state bobVid).state

/-- A flat generic message sitting in a transport inbox, used to
exercise `receive`. -/
def inboxFlat : FlatReceivedTspMessage :=
  { variant := variantGenericMessage, sender := "alice", receiver := some "bob",
    message := [1, 2] }

/-- Wallet data with one pending inbox message for bob. -/
def inboxWallet : WalletData := { emptyWallet with inbox := [("bob", inboxFlat)] }

/-- Store state over `inboxWallet`. -/
def inboxStore : StoreState := { mem := inboxWallet, disk := inboxWallet }

/-- Routed-scenario identifier: the a-side identity related to hop b
(mirrors `nette_a` in `test_routed`). -/
def netteA : OwnedVid := { id := "nette-a", transport := "tcp://t" }

/-- Routed-scenario identifier: the hidden original sender. -/
def sneakyA : OwnedVid := { id := "sneaky-a", transport := "tcp://t" }

/-- Routed-scenario identifier: intermediate hop b. -/
def hopB : OwnedVid := { id := "b", transport := "tcp://t" }

/-- Routed-scenario identifier: the drop-off mailbox at party c. -/
def mailboxC : OwnedVid := { id := "mailbox-c", transport := "tcp://t" }

/-- Routed-scenario identifier: intermediate hop c. -/
def hopC : OwnedVid := { id := "c", transport := "tcp://t" }

/-- Routed-scenario identifier: the hidden final receiver. -/
def sneakyD : OwnedVid := { id := "sneaky-d", transport := "tcp://t" }

/-- Routed-scenario identifier: the d-side identity related to the
mailbox. -/
def netteD : OwnedVid := { id := "nette-d", transport := "tcp://t" }

/-- The sender store of the routed scenario (party a of `test_routed`):
private `nette-a` and `sneaky-a`, verified `b` and `sneaky-d`,
relationships toward `b` and `sneaky-d`, and the three-hop route
recorded on `sneaky-d`. -/
def aStoreR : StoreState :=
  (set_route_for_vid
    (make_relationship_request
      (make_relationship_request
        (add_verified_owned_vid
          (add_verified_owned_vid
            (add_private_vid (add_private_vid st0 netteA).state sneakyA).state
            hopB).state
          sneakyD).state
        "nette-a" "b" none).state
      "sneaky-a" "sneaky-d" none).state
    "sneaky-d" ["b", "c", "mailbox-c"]).state

/-- The first intermediate hop store (party b of `test_routed`). -/
def bStoreR : StoreState :=
  (make_relationship_request
    (add_verified_owned_vid
      (add_verified_owned_vid (add_private_vid st0 hopB).state netteA).state
      hopC).state
    "b" "c" none).state

/-- The second intermediate hop store (party c of `test_routed`). -/
def cStoreR : StoreState :=
  (make_relationship_request
    (add_private_vid
      (add_verified_owned_vid
        (add_private_vid (add_private_vid st0 mailboxC).state hopC).state
        hopB).state
      netteD).state
    "nette-d" "mailbox-c" none).state

/-- The final receiver store (party d of `test_routed`). -/
def dStoreR : StoreState :=
  (add_verified_owned_vid
    (add_verified_owned_vid
      (add_private_vid (add_private_vid st0 sneakyD).state netteD).state
      sneakyA).state
    mailboxC).state

/-- The original envelope of the routed scenario, addressed from the
hidden sender to the hidden receiver. -/
def routedCore (m : Bytes) : Sealed :=
  .direct .HpkeAuth .Ed25519 "sneaky-a" "sneaky-d" none (.generic m)

/-- The forwarding layer delivered to hop b: remaining route
`[c, mailbox-c]`, sealed from the identity related to b. -/
def routedSealed1 (m : Bytes) : Sealed :=
  .routed .HpkeAuth .Ed25519 "nette-a" "b" ["c", "mailbox-c"] (routedCore m)

/-- The forwarding layer produced by hop b toward hop c. -/
def routedSealed2 (m : Bytes) : Sealed :=
  .routed .HpkeAuth .Ed25519 "b" "c" ["mailbox-c"] (routedCore m)

/-- Nested-scenario parent identifier a. -/
def parentA : OwnedVid := { id := "a", transport := "tcp://t" }

/-- Nested-scenario parent identifier b. -/
def parentB : OwnedVid := { id := "b", transport := "tcp://t" }

/-- Nested-scenario store of party a: `a` private, `b` verified. -/
def aStoreN : StoreState :=
  (add_verified_owned_vid (add_private_vid st0 parentA).state parentB).state

/-- Nested-scenario store of party b: `b` private, `a` verified. -/
def bStoreN : StoreState :=
  (add_verified_owned_vid (add_private_vid st0 parentB).state parentA).state

/-- The nested identifier minted by party a (nonce 0). -/
def nestedAOwned : OwnedVid := { id := nestedName "a" 0, transport := "tcp://t" }

/-- The nested identifier minted by party b (nonce 0 on the b side). -/
def nestedBOwned : OwnedVid := { id := nestedName "b" 0, transport := "tcp://t" }

/-- The sealed nested relationship request sent from parent a. -/
def sealedNestedReq : Sealed :=
  .direct .HpkeAuth .Ed25519 "a" "b" none (.request 0 (some nestedAOwned.id))

/-- The sealed nested relationship accept sent from parent b to the
minted nested identifier of a. -/
def sealedNestedAcc : Sealed :=
  .direct .HpkeAuth .Ed25519 "b" nestedAOwned.id none (.accept (some nestedBOwned.id))

/-- Party a store after minting its nested identifier. -/
def aStoreN1 : StoreState :=
  (make_nested_relationship_request aStoreN "a" "b").state

/-- Party b store after opening the nested request (the disclosed
nested identifier of a is now registered there). -/
def bStoreN1 : StoreState :=
  (open_message bStoreN sealedNestedReq).state

/-- Party b store after minting its own nested identifier for the
accept. -/
def bStoreN2 : StoreState :=
  (make_nested_relationship_accept bStoreN1 "b" nestedAOwned.id 0).state

/-- Party a store after opening the nested accept (the disclosed nested
identifier of b is now registered there). -/
def aStoreN2 : StoreState :=
  (open_message aStoreN1 sealedNestedAcc).state

/-- The generic envelope sealed between the two nested identifiers. -/
def nestedCore (m : Bytes) : Sealed :=
  .direct .HpkeAuth .Ed25519 nestedAOwned.id nestedBOwned.id none (.generic m)

/-- C1: for every pair of private VIDs registered in the store and every
message bytes m, opening the sealed bytes produced by
seal_message(sender, receiver, m) returns a GenericMessage whose sender,
receiver and message equal the originals, with crypto_type not
Plaintext and signature_type not NoSignature. -/
theorem C1_seal_open_roundtrip (s : StoreState) (sender receiver : String)
    (m : Bytes) (srec rrec : VidRecord)
    (hs : lookupVid s.disk.vids sender = some srec)
    (hsp : srec.isPrivate = true)
    (hr : lookupVid s.disk.vids receiver = some rrec)
    (hrp : rrec.isPrivate = true)
    (hroute : rrec.route = []) :
    ∃ url sealed,
      (seal_message s sender receiver m).result = .ok (url, sealed) ∧
      ∃ ct sg,
        (open_message (seal_message s sender receiver m).state sealed).result
          = .ok (.genericMessage sender (some receiver) none m ct sg) ∧
        ct ≠ CryptoType.Plaintext ∧ sg ≠ SignatureType.NoSignature := by
  have hseal : (seal_message s sender receiver m).result
      = .ok (rrec.transport,
          Sealed.direct .HpkeAuth .Ed25519 sender receiver none (.generic m)) := by
    simp [seal_message, withWallet, sealMessageInner, hs, hsp, hr, hroute]
  have hd : (seal_message s sender receiver m).state.disk = s.disk := by
    simp [seal_message, withWallet, sealMessageInner, hs, hsp, hr, hroute]
  refine ⟨rrec.transport, _, hseal, .HpkeAuth, .Ed25519, ?_, by decide, by decide⟩
  simp [open_message, withWallet, hd, openMessageInner, hs, hr, hrp, from_flat,
    variantGenericMessage, variantRequestRelationship, variantAcceptRelationship,
    variantCancelRelationship, variantForwardRequest, variantPendingMessage]

/-- Witness for C1 at the concrete alice/bob store of the test fixture. -/
theorem C1_seal_open_roundtrip_witness :
    ∃ url sealed,
      (seal_message demoStore "alice" "bob" [1, 2]).result = .ok (url, sealed) ∧
      ∃ ct sg,
        (open_message (seal_message demoStore "alice" "bob" [1, 2]).state sealed).result
          = .ok (.genericMessage "alice" (some "bob") none [1, 2] ct sg) ∧
        ct ≠ CryptoType.Plaintext ∧ sg ≠ SignatureType.NoSignature :=
  C1_seal_open_roundtrip demoStore "alice" "bob" [1, 2]
    { id := "alice", transport := "tcp://t", isPrivate := true, route := [] }
    { id := "bob", transport := "tcp://t", isPrivate := true, route := [] }
    rfl rfl rfl rfl rfl

/-- C2: every mutating store operation (store_kv, add_private_vid,
seal_message, open_message, make_relationship_request,
forward_routed_message) brackets its body with the wallet: the
persisted state is loaded, the body runs on the loaded data, and the
in-memory data is flushed back on every exit path — the event trace is
a read followed by a write and the persisted state equals the flushed
memory, unconditionally, hence also when the body raises. -/
theorem C2_wallet_bracket :
    ∀ (s : StoreState) (k : String) (v : Bytes) (ov : OwnedVid)
      (al : Option String) (sender receiver : String) (m : Bytes)
      (msg : Sealed) (rt : Option (List String)) (nh : String)
      (frt : List String) (pl : Sealed),
      ((store_kv s k v).trace = [WEvent.read, WEvent.write] ∧
        (store_kv s k v).state.disk = (store_kv s k v).state.mem ∧
        (store_kv s k v).state.disk = (storeKvInner k v s.disk).2) ∧
      ((add_private_vid s ov al).trace = [WEvent.read, WEvent.write] ∧
        (add_private_vid s ov al).state.disk = (add_private_vid s ov al).state.mem ∧
        (add_private_vid s ov al).state.disk = (addPrivateVidInner ov al s.disk).2) ∧
      ((seal_message s sender receiver m).trace = [WEvent.read, WEvent.write] ∧
        (seal_message s sender receiver m).state.disk
          = (seal_message s sender receiver m).state.mem ∧
        (seal_message s sender receiver m).state.disk
          = (sealMessageInner sender receiver none m s.disk).2) ∧
      ((open_message s msg).trace = [WEvent.read, WEvent.write] ∧
        (open_message s msg).state.disk = (open_message s msg).state.mem ∧
        (open_message s msg).state.disk = (openMessageInner msg s.disk).2) ∧
      ((make_relationship_request s sender receiver rt).trace
          = [WEvent.read, WEvent.write] ∧
        (make_relationship_request s sender receiver rt).state.disk
          = (make_relationship_request s sender receiver rt).state.mem ∧
        (make_relationship_request s sender receiver rt).state.disk
          = (makeRelationshipRequestInner sender receiver rt s.disk).2) ∧
      ((forward_routed_message s nh frt pl).trace = [WEvent.read, WEvent.write] ∧
        (forward_routed_message s nh frt pl).state.disk
          = (forward_routed_message s nh frt pl).state.mem ∧
        (forward_routed_message s nh frt pl).state.disk
          = (forwardRoutedMessageInner nh frt pl s.disk).2) := by
  intro s k v ov al sender receiver m msg rt nh frt pl
  refine ⟨⟨rfl, rfl, rfl⟩, ⟨rfl, rfl, rfl⟩, ⟨rfl, rfl, rfl⟩, ⟨rfl, rfl, ?_⟩,
    ⟨rfl, rfl, rfl⟩, ⟨rfl, rfl, rfl⟩⟩
  simp only [open_message, withWallet]
  rcases h : openMessageInner msg s.disk with ⟨r, st1⟩
  cases r <;> simp

/-- C3: a sealed relationship request, opened by the peer, yields a
RequestRelationship whose sender is the requester; the sealed accept
produced in response, opened by the original requester, yields an
AcceptRelationship whose sender is the acceptor. -/
theorem C3_handshake (sA sB : StoreState) (requester peer : String)
    (qrecA precA qrecB precB : VidRecord)
    (hA1 : lookupVid sA.disk.vids requester = some qrecA)
    (hA1p : qrecA.isPrivate = true)
    (hA2 : lookupVid sA.disk.vids peer = some precA)
    (hB1 : lookupVid sB.disk.vids requester = some qrecB)
    (hB2 : lookupVid sB.disk.vids peer = some precB)
    (hB2p : precB.isPrivate = true) :
    ∃ u1 s1,
      (make_relationship_request sA requester peer none).result = .ok (u1, s1) ∧
      ∃ th,
        (open_message sB s1).result
          = .ok (.requestRelationship requester (some peer) [] none th) ∧
        ∃ u2 s2,
          (make_relationship_accept (open_message sB s1).state
              peer requester th none).result = .ok (u2, s2) ∧
          (open_message (make_relationship_request sA requester peer none).state
              s2).result
            = .ok (.acceptRelationship peer (some requester) none) := by
  have h1 : (make_relationship_request sA requester peer none).result
      = .ok (precA.transport,
          Sealed.direct .HpkeAuth .Ed25519 requester peer none
            (.request sA.disk.nonce none)) := by
    simp [make_relationship_request, withWallet, makeRelationshipRequestInner,
      hA1, hA1p, hA2]
  have h2 : (open_message sB
        (Sealed.direct .HpkeAuth .Ed25519 requester peer none
          (.request sA.disk.nonce none))).result
      = .ok (.requestRelationship requester (some peer) [] none sA.disk.nonce) := by
    simp [open_message, withWallet, openMessageInner, hB1, hB2, hB2p,
      registerNested, from_flat, variantGenericMessage,
      variantRequestRelationship, variantAcceptRelationship,
      variantCancelRelationship, variantForwardRequest, variantPendingMessage]
  have h2d : (open_message sB
        (Sealed.direct .HpkeAuth .Ed25519 requester peer none
          (.request sA.disk.nonce none))).state.disk = sB.disk := by
    simp [open_message, withWallet, openMessageInner, hB1, hB2, hB2p,
      registerNested]
  have h3 : (make_relationship_accept (open_message sB
        (Sealed.direct .HpkeAuth .Ed25519 requester peer none
          (.request sA.disk.nonce none))).state
        peer requester sA.disk.nonce none).result
      = .ok (qrecB.transport,
          Sealed.direct .HpkeAuth .Ed25519 peer requester none (.accept none)) := by
    simp [make_relationship_accept, withWallet, makeRelationshipAcceptInner,
      h2d, hB1, hB2, hB2p]
  have hAv : (make_relationship_request sA requester peer none).state.disk.vids
      = sA.disk.vids := by
    simp [make_relationship_request, withWallet, makeRelationshipRequestInner,
      hA1, hA1p, hA2]
  have h4 : (open_message (make_relationship_request sA requester peer none).state
        (Sealed.direct .HpkeAuth .Ed25519 peer requester none (.accept none))).result
      = .ok (.acceptRelationship peer (some requester) none) := by
    simp [open_message, withWallet, openMessageInner, hAv, hA1, hA1p, hA2,
      registerNested, from_flat, variantGenericMessage,
      variantRequestRelationship, variantAcceptRelationship,
      variantCancelRelationship, variantForwardRequest, variantPendingMessage]
  exact ⟨precA.transport, _, h1, sA.disk.nonce, h2, qrecB.transport, _, h3, h4⟩

/-- Witness for C3 over two concrete single-party stores. -/
theorem C3_handshake_witness :
    ∃ u1 s1,
      (make_relationship_request aStoreN "a" "b" none).result = .ok (u1, s1) ∧
      ∃ th,
        (open_message bStoreN s1).result
          = .ok (.requestRelationship "a" (some "b") [] none th) ∧
        ∃ u2 s2,
          (make_relationship_accept (open_message bStoreN s1).state
              "b" "a" th none).result = .ok (u2, s2) ∧
          (open_message (make_relationship_request aStoreN "a" "b" none).state
              s2).result
            = .ok (.acceptRelationship "b" (some "a") none) :=
  C3_handshake aStoreN bStoreN "a" "b"
    { id := "a", transport := "tcp://t", isPrivate := true, route := [] }
    { id := "b", transport := "tcp://t", isPrivate := false, route := [] }
    { id := "a", transport := "tcp://t", isPrivate := false, route := [] }
    { id := "b", transport := "tcp://t", isPrivate := true, route := [] }
    rfl rfl rfl rfl rfl rfl

/-- C4: in the three-hop routed scenario, sealing toward the
route-registered receiver produces a message that each intermediate hop
opens as exactly a ForwardRequest (never a GenericMessage), and
chaining forward_routed_message at each hop delivers to the final
receiver a GenericMessage whose sender, message and nonconfidential
data equal the original inputs. -/
theorem C4_routed_three_hop (m : Bytes) :
    (seal_message aStoreR "sneaky-a" "sneaky-d" m).result
      = .ok ("tcp://t", routedSealed1 m) ∧
    (open_message bStoreR (routedSealed1 m)).result
      = .ok (.forwardRequest "nette-a" (some "b") "c" ["mailbox-c"]
          (some (routedCore m))) ∧
    (∀ snd rcv ncd msg ct sg,
      (open_message bStoreR (routedSealed1 m)).result
        ≠ .ok (.genericMessage snd rcv ncd msg ct sg)) ∧
    (forward_routed_message (open_message bStoreR (routedSealed1 m)).state
        "c" ["mailbox-c"] (routedCore m)).result
      = .ok ("tcp://t", routedSealed2 m) ∧
    (open_message cStoreR (routedSealed2 m)).result
      = .ok (.forwardRequest "b" (some "c") "mailbox-c" [] (some (routedCore m))) ∧
    (∀ snd rcv ncd msg ct sg,
      (open_message cStoreR (routedSealed2 m)).result
        ≠ .ok (.genericMessage snd rcv ncd msg ct sg)) ∧
    (forward_routed_message (open_message cStoreR (routedSealed2 m)).state
        "mailbox-c" [] (routedCore m)).result
      = .ok ("tcp://t", routedCore m) ∧
    (open_message dStoreR (routedCore m)).result
      = .ok (.genericMessage "sneaky-a" (some "sneaky-d") none m
          .HpkeAuth .Ed25519) := by
  have hb : (open_message bStoreR (routedSealed1 m)).result
      = .ok (.forwardRequest "nette-a" (some "b") "c" ["mailbox-c"]
          (some (routedCore m))) := rfl
  have hc : (open_message cStoreR (routedSealed2 m)).result
      = .ok (.forwardRequest "b" (some "c") "mailbox-c" [] (some (routedCore m))) := rfl
  refine ⟨rfl, hb, ?_, rfl, hc, ?_, rfl, rfl⟩
  · intro snd rcv ncd msg ct sg h
    rw [hb] at h
    simp at h
  · intro snd rcv ncd msg ct sg h
    rw [hc] at h
    simp at h

/-- C5: the nested handshake mints fresh private nested identifiers on
both sides, distinct from the parent identifiers; the minted identifier
equals the nested_vid field the peer obtains by opening the sealed
request (respectively the nested_vid the requester obtains from the
accept), and a subsequent seal_message between the two nested
identifiers opens successfully end-to-end. -/
theorem C5_nested_handshake (m : Bytes) :
    (make_nested_relationship_request aStoreN "a" "b").result
      = .ok (("tcp://t", sealedNestedReq), nestedAOwned) ∧
    nestedAOwned.id ≠ "a" ∧ nestedAOwned.id ≠ "b" ∧
    (lookupVid aStoreN1.disk.vids nestedAOwned.id).map VidRecord.isPrivate
      = some true ∧
    (open_message bStoreN sealedNestedReq).result
      = .ok (.requestRelationship "a" (some "b") [] (some nestedAOwned.id) 0) ∧
    (make_nested_relationship_accept bStoreN1 "b" nestedAOwned.id 0).result
      = .ok (("tcp://t", sealedNestedAcc), nestedBOwned) ∧
    nestedBOwned.id ≠ "a" ∧ nestedBOwned.id ≠ "b" ∧
    nestedBOwned.id ≠ nestedAOwned.id ∧
    (lookupVid bStoreN2.disk.vids nestedBOwned.id).map VidRecord.isPrivate
      = some true ∧
    (open_message aStoreN1 sealedNestedAcc).result
      = .ok (.acceptRelationship "b" (some nestedAOwned.id) (some nestedBOwned.id)) ∧
    (seal_message aStoreN2 nestedAOwned.id nestedBOwned.id m).result
      = .ok ("tcp://t", nestedCore m) ∧
    (open_message bStoreN2 (nestedCore m)).result
      = .ok (.genericMessage nestedAOwned.id (some nestedBOwned.id) none m
          .HpkeAuth .Ed25519) :=
  ⟨rfl, by decide, by decide, rfl, rfl, rfl, by decide, by decide, by decide,
    rfl, rfl, rfl, rfl⟩

/-- C6 counterexample: the `SecureStore.seal_message` wrapper exposes no
nonconfidential_data parameter, so in contrast to the spec-level entry
point the envelope it produces never carries caller-supplied associated
data: at the demo store, the wrapper yields an envelope with empty
associated data while the spec-level call with associated data `[9]`
yields `[9]`. -/
theorem C6_counterexample :
    (seal_message demoStore "alice" "bob" [1, 2]).result.map
        (fun p => sealedNonconfidential p.2) = .ok none ∧
    (seal_message_with_nonconfidential demoStore "alice" "bob" [1, 2]
        (some [9])).result.map (fun p => sealedNonconfidential p.2)
      = .ok (some [9]) ∧
    (Except.ok none : Except TspError (Option Bytes)) ≠ .ok (some [9]) :=
  ⟨rfl, rfl, by simp⟩

/-- C6 (amended): seal_message accepts exactly sender, receiver and
message and returns the pair (transport_url, sealed_bytes); since the
wrapper exposes no nonconfidential_data parameter, every envelope it
seals carries no associated data. -/
theorem C6_seal_message_no_associated_data (s : StoreState)
    (sender receiver : String) (m : Bytes) (url : String) (sealed : Sealed)
    (h : (seal_message s sender receiver m).result = .ok (url, sealed)) :
    sealedNonconfidential sealed = none := by
  rcases hl : lookupVid s.disk.vids sender with _ | srec
  · simp [seal_message, withWallet, sealMessageInner, hl] at h
  · by_cases hp : srec.isPrivate = false
    · simp [seal_message, withWallet, sealMessageInner, hl, hp] at h
    · rcases hr : lookupVid s.disk.vids receiver with _ | rrec
      · simp [seal_message, withWallet, sealMessageInner, hl, hp, hr] at h
      · rcases hrt : rrec.route with _ | ⟨h1, rest⟩
        · simp [seal_message, withWallet, sealMessageInner, hl, hp, hr, hrt] at h
          rcases h with ⟨h2, h3⟩
          simp [← h3, sealedNonconfidential]
        · rcases hh : lookupVid s.disk.vids h1 with _ | hrec
          · simp [seal_message, withWallet, sealMessageInner, hl, hp, hr, hrt, hh] at h
          · simp [seal_message, withWallet, sealMessageInner, hl, hp, hr, hrt, hh] at h
            rcases h with ⟨h2, h3⟩
            simp [← h3, sealedNonconfidential]

/-- Witness for the amended C6 at the demo store. -/
theorem C6_seal_message_no_associated_data_witness :
    sealedNonconfidential
      (Sealed.direct .HpkeAuth .Ed25519 "alice" "bob" none (.generic [1, 2]))
      = none :=
  C6_seal_message_no_associated_data demoStore "alice" "bob" [1, 2] "tcp://t"
    (Sealed.direct .HpkeAuth .Ed25519 "alice" "bob" none (.generic [1, 2])) rfl

/-- C7: a received message whose decoded variant is PendingMessage is
never returned as a value: the from_flat dispatch raises, and
open_message on an envelope carrying a pending payload reports the
error to the caller. -/
theorem C7_pending_unsupported :
    (∀ f : FlatReceivedTspMessage, f.variant = variantPendingMessage →
        from_flat f = .error .todo) ∧
    (∀ (s : StoreState) (ct : CryptoType) (sg : SignatureType)
        (sender receiver : String) (ncd : Option Bytes) (srec rrec : VidRecord),
      lookupVid s.disk.vids sender = some srec →
      lookupVid s.disk.vids receiver = some rrec →
      rrec.isPrivate = true →
      (open_message s (.direct ct sg sender receiver ncd .pending)).result
        = .error .todo) := by
  constructor
  · intro f hf
    simp [from_flat, hf, variantGenericMessage, variantRequestRelationship,
      variantAcceptRelationship, variantCancelRelationship,
      variantForwardRequest, variantPendingMessage]
  · intro s ct sg sender receiver ncd srec rrec hs hr hp
    simp [open_message, withWallet, openMessageInner, hs, hr, hp, from_flat,
      variantGenericMessage, variantRequestRelationship,
      variantAcceptRelationship, variantCancelRelationship,
      variantForwardRequest, variantPendingMessage]

/-- Witness for C7: a concrete pending flat message and a concrete
pending envelope at the demo store. -/
theorem C7_pending_unsupported_witness :
    from_flat { variant := variantPendingMessage } = .error .todo ∧
    (open_message demoStore
        (.direct .HpkeAuth .Ed25519 "alice" "bob" none .pending)).result
      = .error .todo :=
  ⟨C7_pending_unsupported.1 { variant := variantPendingMessage } rfl,
   C7_pending_unsupported.2 demoStore .HpkeAuth .Ed25519 "alice" "bob" none
     { id := "alice", transport := "tcp://t", isPrivate := true, route := [] }
     { id := "bob", transport := "tcp://t", isPrivate := true, route := [] }
     rfl rfl rfl⟩

/-- C8: a decoded control-payload tag outside the six known variants is
reported to the caller as an unrecognized-variant error by the from_flat
dispatch, and open_message on such an envelope fails with that error
rather than mapping it to a known variant. -/
theorem C8_unknown_variant :
    (∀ f : FlatReceivedTspMessage, 6 ≤ f.variant →
        from_flat f = .error (.unrecognizedVariant f.variant)) ∧
    (∀ (s : StoreState) (ct : CryptoType) (sg : SignatureType)
        (sender receiver : String) (ncd : Option Bytes) (tag : Nat)
        (srec rrec : VidRecord),
      lookupVid s.disk.vids sender = some srec →
      lookupVid s.disk.vids receiver = some rrec →
      rrec.isPrivate = true →
      (open_message s
          (.direct ct sg sender receiver ncd (.unknownTag tag))).result
        = .error (.unrecognizedVariant (6 + tag))) := by
  constructor
  · intro f hf
    simp only [from_flat, variantGenericMessage, variantRequestRelationship,
      variantAcceptRelationship, variantCancelRelationship,
      variantForwardRequest, variantPendingMessage]
    rw [if_neg (by omega), if_neg (by omega), if_neg (by omega),
      if_neg (by omega), if_neg (by omega), if_neg (by omega)]
  · intro s ct sg sender receiver ncd tag srec rrec hs hr hp
    simp only [open_message, withWallet, openMessageInner, hs, hr, hp,
      Bool.true_eq_false, if_false, ite_false]
    simp only [from_flat, variantGenericMessage, variantRequestRelationship,
      variantAcceptRelationship, variantCancelRelationship,
      variantForwardRequest, variantPendingMessage]
    rw [if_neg (by omega), if_neg (by omega), if_neg (by omega),
      if_neg (by omega), if_neg (by omega), if_neg (by omega)]

/-- Witness for C8: the smallest unrecognized tag, as a flat message and
inside an envelope opened at the demo store. -/
theorem C8_unknown_variant_witness :
    from_flat { variant := 6 } = .error (.unrecognizedVariant 6) ∧
    (open_message demoStore
        (.direct .HpkeAuth .Ed25519 "alice" "bob" none (.unknownTag 0))).result
      = .error (.unrecognizedVariant 6) :=
  ⟨C8_unknown_variant.1 { variant := 6 } (by decide),
   C8_unknown_variant.2 demoStore .HpkeAuth .Ed25519 "alice" "bob" none 0
     { id := "alice", transport := "tcp://t", isPrivate := true, route := [] }
     { id := "bob", transport := "tcp://t", isPrivate := true, route := [] }
     rfl rfl rfl⟩

/-- C9: repeated resolve_alias calls with no intervening mutation agree:
a second call on the state produced by the first returns the same
result, and a never-registered alias resolves to None. -/
theorem C9_resolve_alias_idempotent (s : StoreState) (a : String) :
    (resolve_alias s a).result
      = (resolve_alias (resolve_alias s a).state a).result ∧
    (lookupAlias s.disk.aliases a = none →
      (resolve_alias s a).result = .ok none) := by
  constructor
  · simp [resolve_alias, withWallet, resolveAliasInner]
  · intro h
    simp [resolve_alias, withWallet, resolveAliasInner, h]

/-- Witness for C9: an alias never registered at the demo store. -/
theorem C9_resolve_alias_idempotent_witness :
    (resolve_alias demoStore "missing").result
      = (resolve_alias (resolve_alias demoStore "missing").state "missing").result ∧
    (resolve_alias demoStore "missing").result = .ok none :=
  ⟨(C9_resolve_alias_idempotent demoStore "missing").1,
   (C9_resolve_alias_idempotent demoStore "missing").2 rfl⟩

/-- C10: receive returns None exactly when the native layer has no
message for the given identifier, and otherwise the result of the same
from_flat variant dispatch used by open_message, so callers distinguish
the no-message case from every message variant without an exception. -/
theorem C10_receive_dispatch (s : StoreState) (vid : String) :
    ((receiveInner vid s.disk).1 = none → (receive s vid).result = .ok none) ∧
    (∀ f, (receiveInner vid s.disk).1 = some f →
        (receive s vid).result = (from_flat f).map some) ∧
    (∀ msg : ReceivedTspMessage,
        (Except.ok (some msg) : Except TspError (Option ReceivedTspMessage))
          ≠ .ok none) := by
  refine ⟨?_, ?_, ?_⟩
  · intro h
    simp [receive, withWallet, h]
  · intro f h
    simp [receive, withWallet, h]
  · intro msg h
    simp at h

/-- Witness for C10: the inbox store holds one message for bob and none
for anyone else. -/
theorem C10_receive_dispatch_witness :
    (receive inboxStore "nobody").result = .ok none ∧
    (receive inboxStore "bob").result = (from_flat inboxFlat).map some :=
  ⟨(C10_receive_dispatch inboxStore "nobody").1 rfl,
   (C10_receive_dispatch inboxStore "bob").2.1 inboxFlat rfl⟩
